import Mathlib

/-!
Shallow embedding of `homework.py` (a Telegram homework-status polling bot).

The script polls a homework-review API, validates the response shape,
parses the first homework record into a notification string, and sends it
through a bot.  We embed the Python values the script manipulates as
`PyVal`, the exceptions it raises as `Exc`, and each function of the
script as a Lean function of the same name.  The poll loop of `main`
(lines 111-136) is embedded as a step function `loopStep` on an explicit
`LoopState`, driven by an environment value describing what the external
world (HTTP, keyboard) does in that iteration; `runLoop` folds it over a
list of such environments.

`config.py` and `exceptions.py` are imported by the script but are not part
of the sources; `config` only re-exports the three environment variables
(a string when set, absent otherwise), modelled by `Config`, and
`exceptions` only declares the two exception classes `ParseStatusError`
and `ApiAnswerError`, modelled as constructors of `ExcKind`.
-/

/-- Python values relevant to the script: JSON-decoded bodies, strings,
integers, lists, dicts and `None`.  Dicts are association lists keyed by
strings (the script only ever uses string keys). -/
inductive PyVal where
  | none : PyVal
  | str : String → PyVal
  | int : Int → PyVal
  | list : List PyVal → PyVal
  | dict : List (String × PyVal) → PyVal

/-- Kinds of exceptions the script can raise.  `ParseStatusError` and
`ApiAnswerError` are the two classes declared in `exceptions.py`. -/
inductive ExcKind where
  | typeError : ExcKind
  | keyError : ExcKind
  | parseStatusError : ExcKind
  | apiAnswerError : ExcKind
  | attributeError : ExcKind
  | indexError : ExcKind
  | unboundLocalError : ExcKind
deriving DecidableEq

/-- An exception: its class and its message text. -/
structure Exc where
  kind : ExcKind
  msg : String
deriving DecidableEq

/-- Python `x is None` for the embedded values. -/
def isPyNone : PyVal → Bool
  | .none => true
  | _ => false

/-- Python truthiness (`if x:`) for the embedded values. -/
def pyTruthy : PyVal → Bool
  | .none => false
  | .str s => s != ""
  | .int n => n != 0
  | .list l => !l.isEmpty
  | .dict d => !d.isEmpty

/-- First value bound to key `k` in dict entries `d`, or `dflt` when the
key is absent: Python `d.get(k, dflt)` on a dict. -/
def dictGetD (d : List (String × PyVal)) (k : String) (dflt : PyVal) : PyVal :=
  match d.find? (fun p => p.1 == k) with
  | some p => p.2
  | Option.none => dflt

/-- Whether key `k` occurs in dict entries `d`: Python `k in d`. -/
def dictHasKey (d : List (String × PyVal)) (k : String) : Bool :=
  (d.find? (fun p => p.1 == k)).isSome

/-- Python `v.get(k, dflt)` on an arbitrary value: dicts look the key up,
any other receiver raises `AttributeError` (no `.get` attribute). -/
def pyGet (v : PyVal) (k : String) (dflt : PyVal) : Except Exc PyVal :=
  match v with
  | .dict d => .ok (dictGetD d k dflt)
  | _ => .error { kind := .attributeError, msg := "object has no attribute get" }

/-- Python `v[0]`.  Only the list case is ever reached by the script
(after `check_response` has validated the value); the other cases record
the exception CPython would raise. -/
def pyIndexZero : PyVal → Except Exc PyVal
  | .list (a :: _) => .ok a
  | .list [] => .error { kind := .indexError, msg := "list index out of range" }
  | _ => .error { kind := .typeError, msg := "object is not subscriptable" }

/-- Python `str(v)`, as interpolated into the script's f-strings.  Exact
for the strings, integers and `None` the claims evaluate; the rendering of
nested containers is abbreviated (the script never interpolates one). -/
def pyStr : PyVal → String
  | .none => "None"
  | .str s => s
  | .int n => toString n
  | .list _ => "[...]"
  | .dict _ => "{...}"

/-- `HOMEWORK_VERDICTS` (lines 22-26): the fixed status → verdict table. -/
def HOMEWORK_VERDICTS : List (String × String) :=
  [("approved", "Работа проверена: ревьюеру всё понравилось. Ура!"),
   ("reviewing", "Работа взята на проверку ревьюером."),
   ("rejected", "Работа проверена: у ревьюера есть замечания.")]

/-- `HOMEWORK_VERDICTS.get(status)` (line 85): dict lookup with a `None`
default.  Non-string statuses are never keys of the table. -/
def verdictGet : PyVal → Option String
  | .str s => (HOMEWORK_VERDICTS.find? (fun p => p.1 == s)).map (fun p => p.2)
  | _ => Option.none

/-- `RETRY_PERIOD` (line 17): the fixed sleep between iterations. -/
def RETRY_PERIOD : Nat := 600

/-- `check_response` (lines 60-69): validates the decoded body.  Raises
`TypeError` when the body is not a dict, `KeyError` when `homeworks` is
absent, `TypeError` when `homeworks` is not a list; otherwise returns
`None` (so the caller's `homeworks` variable is always `None`). -/
def check_response (response : PyVal) : Except Exc Unit :=
  match response with
  | .dict d =>
    if dictHasKey d "homeworks" then
      match dictGetD d "homeworks" PyVal.none with
      | .list _ => .ok ()
      | _ => .error { kind := .typeError,
                      msg := "Данные homeworks получены не в виде списка" }
    else
      .error { kind := .keyError, msg := "Данных homeworks нет в ответе эндпоинта" }
  | _ => .error { kind := .typeError,
                  msg := "Ответ от эндпоинта пришел не в формате словаря" }

/-- `parse_status` (lines 72-89).  `None` input logs and returns `None`;
a dict input reads `homework_name` and `status` with `.get` (absent keys
yield `None`), raises `KeyError` when the name is `None`, raises
`ParseStatusError` when the status is `None`, returns the notification
string when both the name and the looked-up verdict are truthy, and
otherwise raises the unknown-status `ParseStatusError`.  A non-dict,
non-`None` input would fail on the `.get` attribute access. -/
def parse_status (homework : PyVal) : Except Exc (Option String) :=
  match homework with
  | .none => .ok Option.none
  | .dict d =>
    let homework_name := dictGetD d "homework_name" PyVal.none
    let status := dictGetD d "status" PyVal.none
    if isPyNone homework_name then
      .error { kind := .keyError, msg := "Отсутствует ключ \"homework_name\"!" }
    else if isPyNone status then
      .error { kind := .parseStatusError, msg := "Статус домашних работ не изменился." }
    else
      match verdictGet status with
      | Option.some verdict =>
        if pyTruthy homework_name && (verdict != "") then
          .ok (Option.some ("Изменился статус проверки работы \"" ++ pyStr homework_name
                ++ "\". " ++ verdict))
        else
          .error { kind := .parseStatusError,
                   msg := "Неизвестный статус домашней работы " ++ pyStr status ++ "." }
      | Option.none =>
        .error { kind := .parseStatusError,
                 msg := "Неизвестный статус домашней работы " ++ pyStr status ++ "." }
  | _ => .error { kind := .attributeError, msg := "object has no attribute get" }

/-- The three configuration values re-exported by `config.py`: each is the
string value of its environment variable, or absent (`None`) when the
variable is unset. -/
structure Config where
  practicum_token : Option String
  telegram_token : Option String
  telegram_chat_id : Option String
deriving DecidableEq

/-- `TOKENS_CHAT_FOR_TELEGRAM` (line 94): the tuple the check iterates over. -/
def tokenList (cfg : Config) : List (Option String) :=
  [cfg.practicum_token, cfg.telegram_token, cfg.telegram_chat_id]

/-- Which tokens trigger the `logger.critical` call (lines 95-99): exactly
those equal to `None`.  Entry `i` is `true` iff the loop logged critically
for token `i`. -/
def check_tokens_criticals (cfg : Config) : List Bool :=
  (tokenList cfg).map (fun t => t.isNone)

/-- Python truthiness of an optional string: `None` and `''` are falsy. -/
def optTruthy : Option String → Bool
  | Option.none => false
  | Option.some s => s != ""

/-- `check_tokens` (lines 92-100): returns `all(TOKENS_CHAT_FOR_TELEGRAM)`,
i.e. every value is present and truthy (non-empty). -/
def check_tokens (cfg : Config) : Bool :=
  (tokenList cfg).all optTruthy

/-- What one HTTP request observes: a status code with a decoded JSON body,
or a `requests.RequestException` (network/transport failure) with its text. -/
inductive HttpOutcome where
  | response : Nat → PyVal → HttpOutcome
  | requestException : String → HttpOutcome

/-- `get_api_answer` (lines 46-58) as a function of the observed HTTP
outcome: a non-200 code raises `ApiAnswerError` with the code, a transport
failure raises `ApiAnswerError` with the cause, a 200 response returns the
decoded body unvalidated. -/
def get_api_answer (o : HttpOutcome) : Except Exc PyVal :=
  match o with
  | .response code body =>
    if code == 200 then .ok body
    else .error { kind := .apiAnswerError,
                  msg := "Ошибка при запросе к API. Код ответа: " ++ toString code }
  | .requestException e =>
    .error { kind := .apiAnswerError, msg := "Ошибка при запросе к API: " ++ e }

/-- The `message_error` variable of `main`: the empty string it is
initialized with (line 110), or a caught exception object (line 134).
Exception objects carry an identity `Nat`: Python compares exceptions with
default `==`/`!=`, which is object identity, so two distinct raises are
never equal even with identical text. -/
inductive ErrSlot where
  | initStr : ErrSlot
  | exc : Nat → Exc → ErrSlot

/-- `error != message_error` (line 131), where the freshly caught exception
object has identity `id`: against the initial `''` the comparison is a
cross-type `!=`, hence `true`; against a stored exception object it is
identity inequality. -/
def neqLastError : ErrSlot → Nat → Bool
  | .initStr, _ => true
  | .exc i _, j => i != j

/-- The mutable state of `main`'s loop: `current_timestamp` (line 109 /
line 114 — note it becomes whatever `response.get('current_timestamp')`
yields), `message_error`, the local variable `message` (`Option.none` means
not yet assigned — reading it then raises `UnboundLocalError`; its Python
value once assigned is a string or `None`, hence the inner `Option`), and a
counter supplying fresh identities for caught exception objects. -/
structure LoopState where
  current_timestamp : PyVal
  message_error : ErrSlot
  message : Option (Option String)
  excId : Nat

/-- How one iteration of the `while True` loop ends: continue to the next
iteration, break out gracefully (`KeyboardInterrupt`), or let an uncaught
exception escape `main`, terminating the process. -/
inductive StepOutcome where
  | next : LoopState → StepOutcome
  | stop : LoopState → StepOutcome
  | crash : Exc → StepOutcome

/-- What the external world does during one iteration: the outcome of the
HTTP request, or a `KeyboardInterrupt` delivered during the blocking call. -/
inductive IterEnv where
  | http : HttpOutcome → IterEnv
  | interrupt : IterEnv

/-- The `except Exception` handler (lines 129-134) catching exception `e`,
with `ts` and `msg` the values of `current_timestamp` and `message` at the
moment of the raise.  It logs the error; since `error != message_error` is
object identity (always true here, the caught object is fresh), it then
logs again and calls `send_message(bot, message)`: if `message` was never
assigned this raises `UnboundLocalError`, which is not caught by anything
and escapes `main`; otherwise the stale `message` value is what is sent
(`telegram` errors inside `send_message` are swallowed, lines 37-43), and
`message_error` is set to the caught exception object. -/
def handleExc (s : LoopState) (ts : PyVal) (msg : Option (Option String))
    (e : Exc) : StepOutcome × List PyVal :=
  if neqLastError s.message_error s.excId then
    match msg with
    | Option.none =>
      (.crash { kind := .unboundLocalError,
                msg := "local variable referenced before assignment" }, [])
    | Option.some m =>
      let sent := match m with
        | Option.some t => PyVal.str t
        | Option.none => PyVal.none
      (.next { current_timestamp := ts, message_error := .exc s.excId e,
               message := msg, excId := s.excId + 1 }, [sent])
  else
    (.next { current_timestamp := ts, message_error := s.message_error,
             message := msg, excId := s.excId + 1 }, [])

/-- One iteration of the loop body of `main` (lines 111-136), returning the
outcome and the list of texts passed to `send_message`.  The `try` body:
call the API; assign `current_timestamp := response.get('current_timestamp')`
(this happens before validation, and the documented responses carry
`current_date`, not `current_timestamp`); run `check_response` (its `None`
return makes the `if not homeworks` debug log unconditional); if the
response is truthy, take `response.get('homeworks', [])`, and if that is
truthy parse its first record, assign `message`, and send it when truthy.
Any exception transfers to `handleExc` with the state reached so far;
`KeyboardInterrupt` breaks the loop.  The unconditional
`time.sleep(RETRY_PERIOD)` in `finally` has no effect on the state. -/
def loopStep (s : LoopState) (env : IterEnv) : StepOutcome × List PyVal :=
  match env with
  | .interrupt => (.stop s, [])
  | .http o =>
    match get_api_answer o with
    | .error e => handleExc s s.current_timestamp s.message e
    | .ok response =>
      match pyGet response "current_timestamp" PyVal.none with
      | .error e => handleExc s s.current_timestamp s.message e
      | .ok ts =>
        match check_response response with
        | .error e => handleExc s ts s.message e
        | .ok _ =>
          if pyTruthy response then
            match pyGet response "homeworks" (PyVal.list []) with
            | .error e => handleExc s ts s.message e
            | .ok homework =>
              if pyTruthy homework then
                match pyIndexZero homework with
                | .error e => handleExc s ts s.message e
                | .ok first =>
                  match parse_status first with
                  | .error e => handleExc s ts s.message e
                  | .ok m =>
                    let sends := match m with
                      | Option.some t => if pyTruthy (PyVal.str t) then [PyVal.str t] else []
                      | Option.none => []
                    (.next { current_timestamp := ts, message_error := s.message_error,
                             message := Option.some m, excId := s.excId }, sends)
              else
                (.next { s with current_timestamp := ts }, [])
          else
            (.next { s with current_timestamp := ts }, [])

/-- The loop state on entry (lines 109-110): `current_timestamp` is the
current time, `message_error` the empty string, `message` unassigned. -/
def initState (now : Int) : LoopState :=
  { current_timestamp := PyVal.int now, message_error := .initStr,
    message := Option.none, excId := 0 }

/-- How a whole run ends (or is still going after the given iterations). -/
inductive RunResult where
  | running : LoopState → RunResult
  | stopped : LoopState → RunResult
  | crashed : Exc → RunResult

/-- Run the loop through a list of iteration environments, collecting every
text passed to `send_message` across iterations. -/
def runLoop (s : LoopState) : List IterEnv → RunResult × List PyVal
  | [] => (.running s, [])
  | e :: es =>
    match loopStep s e with
    | (.next s2, sends) =>
      let rest := runLoop s2 es
      (rest.1, sends ++ rest.2)
    | (.stop s2, sends) => (.stopped s2, sends)
    | (.crash ex, sends) => (.crashed ex, sends)

/-- What `main` does before the loop (lines 105-106): exit when
`check_tokens` is falsy, otherwise build the bot and enter the loop. -/
inductive Startup where
  | exitBeforeLoop : Startup
  | enterLoop : LoopState → Startup

/-- `main`'s startup (lines 103-110) as a function of the configuration
and the clock reading. -/
def main_startup (cfg : Config) (now : Int) : Startup :=
  if check_tokens cfg then .enterLoop (initState now) else .exitBeforeLoop

/-- The configuration of claim C8's counterexample: every value present,
but the API token set to the empty string. -/
def cfgC8 : Config :=
  { practicum_token := Option.some "", telegram_token := Option.some "tok",
    telegram_chat_id := Option.some "chat" }

/-- The configuration of claim C9's witness: every value present but empty. -/
def cfgC9 : Config :=
  { practicum_token := Option.some "", telegram_token := Option.some "",
    telegram_chat_id := Option.some "" }

/-- A homework record the server could report: reviewed and approved. -/
def hwRecordC1 : PyVal :=
  .dict [("homework_name", .str "hw1"), ("status", .str "approved")]

/-- The dict entries of a well-formed API response carrying `hwRecordC1`:
a `homeworks` list and the documented `current_date` cursor field. -/
def respEntriesC1 : List (String × PyVal) :=
  [("homeworks", PyVal.list [hwRecordC1]), ("current_date", PyVal.int 2)]

/-- The notification `parse_status` produces for `hwRecordC1`. -/
def msgC1 : String :=
  "Изменился статус проверки работы \"hw1\". Работа проверена: ревьюеру всё понравилось. Ура!"

/-- Claim C2's failing input: a documented response body, `homeworks` empty,
the server cursor reported under `current_date` as the API documents. -/
def respC2 : PyVal :=
  .dict [("homeworks", PyVal.list []), ("current_date", PyVal.int 1700000600)]

/-- A response for claim C3's trace: one approved homework. -/
def respC3 : PyVal :=
  .dict [("homeworks", PyVal.list [.dict [("homework_name", .str "hw3"),
    ("status", .str "approved")]]), ("current_date", PyVal.int 3)]

/-- The notification `parse_status` produces for the record in `respC3`. -/
def msgC3 : String :=
  "Изменился статус проверки работы \"hw3\". Работа проверена: ревьюеру всё понравилось. Ура!"

example : check_response (PyVal.dict [("homeworks", PyVal.list [])]) = .ok () := by rfl
example : check_tokens { practicum_token := some "", telegram_token := some "x",
                         telegram_chat_id := some "y" } = false := by rfl
example : parse_status (PyVal.dict [("homework_name", PyVal.str ""),
    ("status", PyVal.str "approved")]) =
    .error { kind := .parseStatusError,
             msg := "Неизвестный статус домашней работы approved." } := by rfl

/-- Claim C5: for every decoded response body, `check_response` fails with a
`TypeError` when the body is not a dict; fails with a `KeyError` when it is
a dict without the `homeworks` key; fails with a `TypeError` when the
`homeworks` value is not a list; and otherwise passes, returning only unit. -/
theorem C5_check_response_shape (r : PyVal) :
    ((∀ d, r ≠ PyVal.dict d) →
      ∃ m, check_response r = .error { kind := .typeError, msg := m }) ∧
    (∀ d, r = PyVal.dict d → dictHasKey d "homeworks" = false →
      ∃ m, check_response r = .error { kind := .keyError, msg := m }) ∧
    (∀ d, r = PyVal.dict d → dictHasKey d "homeworks" = true →
      (∀ l, dictGetD d "homeworks" PyVal.none ≠ PyVal.list l) →
      ∃ m, check_response r = .error { kind := .typeError, msg := m }) ∧
    (∀ d l, r = PyVal.dict d → dictGetD d "homeworks" PyVal.none = PyVal.list l →
      check_response r = .ok ()) := by
  refine ⟨?_, ?_, ?_, ?_⟩
  · intro h
    cases r with
    | dict d => exact absurd rfl (h d)
    | none => exact ⟨_, rfl⟩
    | str s => exact ⟨_, rfl⟩
    | int n => exact ⟨_, rfl⟩
    | list l => exact ⟨_, rfl⟩
  · intro d hr hk
    subst hr
    exact ⟨"Данных homeworks нет в ответе эндпоинта", by simp [check_response, hk]⟩
  · intro d hr hk hv
    subst hr
    refine ⟨"Данные homeworks получены не в виде списка", ?_⟩
    simp only [check_response, hk, if_true]
  · intro d l hr hval
    subst hr
    have hk : dictHasKey d "homeworks" = true := by
      unfold dictHasKey
      unfold dictGetD at hval
      cases h : d.find? (fun p => p.1 == "homeworks") with
      | none => rw [h] at hval; exact PyVal.noConfusion hval
      | some p => rfl
    simp [check_response, hk, hval]

/-- Witness for C5: each branch of `check_response` at a concrete body. -/
theorem C5_check_response_shape_witness :
    (∃ m, check_response (PyVal.int 3) = .error { kind := .typeError, msg := m }) ∧
    (∃ m, check_response (PyVal.dict [("other", PyVal.int 1)])
            = .error { kind := .keyError, msg := m }) ∧
    (∃ m, check_response (PyVal.dict [("homeworks", PyVal.int 1)])
            = .error { kind := .typeError, msg := m }) ∧
    check_response (PyVal.dict [("homeworks", PyVal.list [])]) = .ok () := by
  refine ⟨(C5_check_response_shape (PyVal.int 3)).1 ?_,
          (C5_check_response_shape _).2.1 _ rfl (by rfl),
          (C5_check_response_shape _).2.2.1 _ rfl (by rfl) ?_,
          (C5_check_response_shape _).2.2.2 _ [] rfl (by rfl)⟩
  · intro d h
    exact PyVal.noConfusion h
  · intro l h
    exact PyVal.noConfusion h

/-- Counterexample to claim C6 as stated: in the record
`{'homework_name': '', 'status': 'approved'}` the name key is present
(its value is not `None`), yet `parse_status` raises the unknown-status
`ParseStatusError` instead of returning a notification string. -/
theorem C6_counterexample :
    isPyNone (dictGetD [("homework_name", PyVal.str ""), ("status", PyVal.str "approved")]
        "homework_name" PyVal.none) = false ∧
    parse_status (PyVal.dict [("homework_name", PyVal.str ""), ("status", PyVal.str "approved")])
      = .error { kind := .parseStatusError,
                 msg := "Неизвестный статус домашней работы approved." } :=
  ⟨rfl, rfl⟩

/-- Claim C6 (amended: the name must be present and non-empty): for every
homework record whose `status` is `"approved"` and whose `homework_name` is
a non-empty string, `parse_status` returns a notification string containing
both the name and the approved verdict text. -/
theorem C6_approved_message (d : List (String × PyVal)) (name : String)
    (hname : dictGetD d "homework_name" PyVal.none = PyVal.str name)
    (hne : name ≠ "")
    (hstatus : dictGetD d "status" PyVal.none = PyVal.str "approved") :
    ∃ m, parse_status (PyVal.dict d) = .ok (Option.some m) ∧
      (∃ p q, m = p ++ (name ++ q)) ∧
      (∃ p q, m = p ++ ("Работа проверена: ревьюеру всё понравилось. Ура!" ++ q)) := by
  refine ⟨"Изменился статус проверки работы \"" ++ name ++ "\". "
            ++ "Работа проверена: ревьюеру всё понравилось. Ура!", ?_, ?_, ?_⟩
  · simp only [parse_status, hname, hstatus]
    simp [isPyNone, verdictGet, HOMEWORK_VERDICTS, pyTruthy, pyStr, hne]
  · refine ⟨"Изменился статус проверки работы \"",
            "\". " ++ "Работа проверена: ревьюеру всё понравилось. Ура!", ?_⟩
    rw [String.append_assoc, String.append_assoc]
  · refine ⟨"Изменился статус проверки работы \"" ++ name ++ "\". ", "", ?_⟩
    rw [String.append_empty]

/-- Witness for C6 (amended) at the record
`{'homework_name': 'hw1', 'status': 'approved'}`. -/
theorem C6_approved_message_witness :
    ∃ m, parse_status (PyVal.dict [("homework_name", PyVal.str "hw1"),
        ("status", PyVal.str "approved")]) = .ok (Option.some m) ∧
      (∃ p q, m = p ++ ("hw1" ++ q)) ∧
      (∃ p q, m = p ++ ("Работа проверена: ревьюеру всё понравилось. Ура!" ++ q)) :=
  C6_approved_message _ "hw1" rfl (by decide) rfl

/-- Claim C7: for every homework record whose name is present (not `None`)
and whose status is a string outside the verdict table, `parse_status`
raises the unknown-status `ParseStatusError`. -/
theorem C7_unknown_status (d : List (String × PyVal)) (s : String)
    (hname : isPyNone (dictGetD d "homework_name" PyVal.none) = false)
    (hstatus : dictGetD d "status" PyVal.none = PyVal.str s)
    (hnotin : HOMEWORK_VERDICTS.find? (fun p => p.1 == s) = Option.none) :
    parse_status (PyVal.dict d)
      = .error { kind := .parseStatusError,
                 msg := "Неизвестный статус домашней работы " ++ s ++ "." } := by
  simp only [parse_status, hstatus, hname]
  simp [isPyNone, verdictGet, hnotin, pyStr]

/-- Witness for C7 at `{'homework_name': 'hw1', 'status': 'in_progress'}`. -/
theorem C7_unknown_status_witness :
    parse_status (PyVal.dict [("homework_name", PyVal.str "hw1"),
        ("status", PyVal.str "in_progress")])
      = .error { kind := .parseStatusError,
                 msg := "Неизвестный статус домашней работы " ++ "in_progress" ++ "." } :=
  C7_unknown_status _ "in_progress" rfl rfl rfl

/-- Claim C10: for every homework record whose `homework_name` is the empty
string and whose status is a string found in the verdict table,
`parse_status` neither returns a notification nor raises the missing-name
`KeyError`: it raises the unknown-status `ParseStatusError` (the empty name
is falsy, so the `homework_name and verdict` guard falls through to the
unknown-status raise). -/
theorem C10_empty_name_unknown_status (d : List (String × PyVal)) (s : String)
    (hname : dictGetD d "homework_name" PyVal.none = PyVal.str "")
    (hstatus : dictGetD d "status" PyVal.none = PyVal.str s)
    (hver : (HOMEWORK_VERDICTS.find? (fun p => p.1 == s)).isSome = true) :
    parse_status (PyVal.dict d)
      = .error { kind := .parseStatusError,
                 msg := "Неизвестный статус домашней работы " ++ s ++ "." } := by
  obtain ⟨pr, hpr⟩ := Option.isSome_iff_exists.mp hver
  simp only [parse_status, hname, hstatus]
  simp [isPyNone, verdictGet, hpr, pyTruthy, pyStr]

/-- Witness for C10 at `{'homework_name': '', 'status': 'reviewing'}`. -/
theorem C10_empty_name_unknown_status_witness :
    parse_status (PyVal.dict [("homework_name", PyVal.str ""),
        ("status", PyVal.str "reviewing")])
      = .error { kind := .parseStatusError,
                 msg := "Неизвестный статус домашней работы " ++ "reviewing" ++ "." } :=
  C10_empty_name_unknown_status _ "reviewing" rfl rfl rfl

/-- Counterexample to claim C8 as stated: with all three values present
(the API token set but empty), `check_tokens` still fails and `main` exits
before the loop, refuting "if all three are present the token check passes
and the loop is entered". -/
theorem C8_counterexample :
    cfgC8.practicum_token.isSome = true ∧ cfgC8.telegram_token.isSome = true ∧
    cfgC8.telegram_chat_id.isSome = true ∧ check_tokens cfgC8 = false ∧
    main_startup cfgC8 0 = Startup.exitBeforeLoop :=
  ⟨rfl, rfl, rfl, rfl, rfl⟩

/-- Claim C8 (amended: "present" must be strengthened to "present and
non-empty" in the second half): if any of the three configuration values
is `None`, the process exits before the poll loop and a critical log entry
is recorded for that value; if all three are present and non-empty, the
token check passes and the loop is entered. -/
theorem C8_token_check (cfg : Config) (now : Int) :
    (cfg.practicum_token = Option.none →
      main_startup cfg now = Startup.exitBeforeLoop ∧
      (check_tokens_criticals cfg).get? 0 = Option.some true) ∧
    (cfg.telegram_token = Option.none →
      main_startup cfg now = Startup.exitBeforeLoop ∧
      (check_tokens_criticals cfg).get? 1 = Option.some true) ∧
    (cfg.telegram_chat_id = Option.none →
      main_startup cfg now = Startup.exitBeforeLoop ∧
      (check_tokens_criticals cfg).get? 2 = Option.some true) ∧
    ((optTruthy cfg.practicum_token = true ∧ optTruthy cfg.telegram_token = true ∧
        optTruthy cfg.telegram_chat_id = true) →
      main_startup cfg now = Startup.enterLoop (initState now)) := by
  obtain ⟨p, t, c⟩ := cfg
  refine ⟨?_, ?_, ?_, ?_⟩
  · intro h
    subst h
    exact ⟨by simp [main_startup, check_tokens, tokenList, optTruthy],
           by simp [check_tokens_criticals, tokenList]⟩
  · intro h
    subst h
    exact ⟨by simp [main_startup, check_tokens, tokenList, optTruthy],
           by simp [check_tokens_criticals, tokenList]⟩
  · intro h
    subst h
    exact ⟨by simp [main_startup, check_tokens, tokenList, optTruthy],
           by simp [check_tokens_criticals, tokenList]⟩
  · rintro ⟨h1, h2, h3⟩
    simp [main_startup, check_tokens, tokenList, h1, h2, h3]

/-- Witness for C8 (amended): a missing API token exits before the loop;
three non-empty tokens enter it. -/
theorem C8_token_check_witness :
    main_startup { practicum_token := Option.none, telegram_token := Option.some "x",
                   telegram_chat_id := Option.some "y" } 5 = Startup.exitBeforeLoop ∧
    main_startup { practicum_token := Option.some "a", telegram_token := Option.some "b",
                   telegram_chat_id := Option.some "c" } 5 = Startup.enterLoop (initState 5) :=
  ⟨((C8_token_check _ 5).1 rfl).1, (C8_token_check _ 5).2.2.2 ⟨rfl, rfl, rfl⟩⟩

/-- Claim C9: a configuration value that is present but empty makes
`check_tokens` falsy (so `main` exits before the loop), yet the critical
log for that value is not emitted, since only `None` triggers it. -/
theorem C9_empty_token_check_fails (cfg : Config) (now : Int) :
    (cfg.practicum_token = Option.some "" →
      main_startup cfg now = Startup.exitBeforeLoop ∧
      (check_tokens_criticals cfg).get? 0 = Option.some false) ∧
    (cfg.telegram_token = Option.some "" →
      main_startup cfg now = Startup.exitBeforeLoop ∧
      (check_tokens_criticals cfg).get? 1 = Option.some false) ∧
    (cfg.telegram_chat_id = Option.some "" →
      main_startup cfg now = Startup.exitBeforeLoop ∧
      (check_tokens_criticals cfg).get? 2 = Option.some false) := by
  obtain ⟨p, t, c⟩ := cfg
  refine ⟨?_, ?_, ?_⟩ <;> intro h <;> subst h <;>
    exact ⟨by simp [main_startup, check_tokens, tokenList, optTruthy],
           by simp [check_tokens_criticals, tokenList]⟩

/-- Witness for C9: all three values present but empty — the process exits
before the loop and no critical entry is recorded for any of them. -/
theorem C9_empty_token_check_fails_witness :
    main_startup cfgC9 7 = Startup.exitBeforeLoop ∧
    (check_tokens_criticals cfgC9).get? 0 = Option.some false ∧
    (check_tokens_criticals cfgC9).get? 1 = Option.some false ∧
    (check_tokens_criticals cfgC9).get? 2 = Option.some false :=
  ⟨((C9_empty_token_check_fails cfgC9 7).1 rfl).1, ((C9_empty_token_check_fails cfgC9 7).1 rfl).2,
   ((C9_empty_token_check_fails cfgC9 7).2.1 rfl).2,
   ((C9_empty_token_check_fails cfgC9 7).2.2 rfl).2⟩

theorem dictGetD_of_find? {d : List (String × PyVal)} {k : String} {p : String × PyVal}
    (h : d.find? (fun x => x.1 == k) = some p) (dflt : PyVal) :
    dictGetD d k dflt = p.2 := by
  unfold dictGetD
  rw [h]

/-- A successful iteration of the poll loop: when the response is a dict
whose `homeworks` value is a non-empty list whose first record parses to a
truthy message `m`, the iteration sends exactly `[m]` and stores `m` in the
`message` variable — for EVERY starting state, in particular one whose
`message` already equals `m`: nothing in the body consults a last-sent
message. -/
theorem loopStep_success (s : LoopState) (d : List (String × PyVal)) (hw : PyVal)
    (rest : List PyVal) (m : String)
    (hhw : dictGetD d "homeworks" PyVal.none = PyVal.list (hw :: rest))
    (hp : parse_status hw = Except.ok (Option.some m))
    (hm : m ≠ "") :
    loopStep s (IterEnv.http (HttpOutcome.response 200 (PyVal.dict d)))
      = (StepOutcome.next { current_timestamp := dictGetD d "current_timestamp" PyVal.none,
                            message_error := s.message_error,
                            message := Option.some (Option.some m), excId := s.excId },
         [PyVal.str m]) := by
  obtain ⟨p, hfind, hp2⟩ : ∃ p, d.find? (fun x => x.1 == "homeworks") = some p ∧
      p.2 = PyVal.list (hw :: rest) := by
    unfold dictGetD at hhw
    cases h : d.find? (fun x => x.1 == "homeworks") with
    | none => rw [h] at hhw; exact PyVal.noConfusion hhw
    | some p => rw [h] at hhw; exact ⟨p, rfl, hhw⟩
  have hne : d.isEmpty = false := by
    cases d with
    | nil => simp at hfind
    | cons a as => rfl
  have hk : dictHasKey d "homeworks" = true := by
    unfold dictHasKey; rw [hfind]; rfl
  have hcr : check_response (PyVal.dict d) = .ok () := by
    simp [check_response, hk, hhw]
  have hget2 : dictGetD d "homeworks" (PyVal.list []) = PyVal.list (hw :: rest) := by
    rw [dictGetD_of_find? hfind, hp2]
  simp [loopStep, get_api_answer, pyGet, hcr, pyTruthy, hne, hget2, pyIndexZero, hp, hm]

/-- Counterexample to claim C1 as stated: two consecutive iterations whose
parsed notification message is identical (`msgC1`) invoke the notifier
twice — the run collects two sends, not at most one; no last-sent message
is kept in the loop state. -/
theorem C1_counterexample :
    (runLoop (initState 1)
        [IterEnv.http (HttpOutcome.response 200 (PyVal.dict respEntriesC1)),
         IterEnv.http (HttpOutcome.response 200 (PyVal.dict respEntriesC1))]).2
      = [PyVal.str msgC1, PyVal.str msgC1] := by rfl

/-- Claim C1 (amended: the loop performs no duplicate suppression — the
parsed message is sent on every iteration it is non-empty, equal to the
last sent one or not, and the loop state keeps no last-sent message): for
every starting state, two consecutive iterations receiving the same
well-formed response whose first homework record parses to a non-empty
message `m` each send `m`, two sends in total. -/
theorem C1_every_message_sent (s : LoopState) (d : List (String × PyVal)) (hw : PyVal)
    (rest : List PyVal) (m : String)
    (hhw : dictGetD d "homeworks" PyVal.none = PyVal.list (hw :: rest))
    (hp : parse_status hw = Except.ok (Option.some m))
    (hm : m ≠ "") :
    (runLoop s [IterEnv.http (HttpOutcome.response 200 (PyVal.dict d)),
                IterEnv.http (HttpOutcome.response 200 (PyVal.dict d))]).2
      = [PyVal.str m, PyVal.str m] := by
  have h1 := loopStep_success s d hw rest m hhw hp hm
  have h2 := loopStep_success
    { current_timestamp := dictGetD d "current_timestamp" PyVal.none,
      message_error := s.message_error,
      message := Option.some (Option.some m), excId := s.excId } d hw rest m hhw hp hm
  simp [runLoop, h1, h2]

/-- Witness for C1 (amended) where the starting state's `message` already
holds the very message about to be parsed: it is sent again anyway, twice. -/
theorem C1_every_message_sent_witness :
    (runLoop { current_timestamp := PyVal.int 1, message_error := ErrSlot.initStr,
               message := Option.some (Option.some msgC1), excId := 0 }
        [IterEnv.http (HttpOutcome.response 200 (PyVal.dict respEntriesC1)),
         IterEnv.http (HttpOutcome.response 200 (PyVal.dict respEntriesC1))]).2
      = [PyVal.str msgC1, PyVal.str msgC1] :=
  C1_every_message_sent _ respEntriesC1 hwRecordC1 [] msgC1 rfl rfl (by decide)

/-- Claim C2 is broken by the code: on the documented response body
`{'homeworks': [], 'current_date': 1700000600}` the loop sets the cursor
to `None` (line 114 reads the non-existent key `current_timestamp` instead
of `current_date`), not to the server-reported epoch value — so the cursor
does not remain a monotonically nondecreasing seconds-since-epoch value. -/
theorem C2_cursor_becomes_none :
    loopStep (initState 1700000000) (IterEnv.http (HttpOutcome.response 200 respC2))
      = (StepOutcome.next { current_timestamp := PyVal.none,
                            message_error := ErrSlot.initStr,
                            message := Option.none, excId := 0 }, []) := by rfl

/-- Claim C3 is broken by the code: after a successful iteration that sent
`msgC3`, two consecutive iterations failing with the identical
`ApiAnswerError` text both attempt a notification (the comparison
`error != message_error` is exception-object identity, never equal for two
distinct raises, so same-text suppression never happens), and what each
failure notification sends is the stale homework message `msgC3`, not a
text conveying the failure. -/
theorem C3_failure_notification_misdirected :
    (runLoop (initState 1)
        [IterEnv.http (HttpOutcome.response 200 respC3),
         IterEnv.http (HttpOutcome.requestException "Connection refused"),
         IterEnv.http (HttpOutcome.requestException "Connection refused")]).2
      = [PyVal.str msgC3, PyVal.str msgC3, PyVal.str msgC3] ∧
    msgC3 ≠ "Ошибка при запросе к API: Connection refused" :=
  ⟨by rfl, by decide⟩

/-- Claim C4 is broken by the code: an `ApiAnswerError` on the very first
iteration (before `message` was ever assigned) makes the handler's
`send_message(bot, message)` raise `UnboundLocalError`, which nothing
catches — the run crashes instead of sleeping and continuing. -/
theorem C4_crash_on_first_error :
    runLoop (initState 1) [IterEnv.http (HttpOutcome.requestException "Connection refused")]
      = (RunResult.crashed { kind := ExcKind.unboundLocalError,
                             msg := "local variable referenced before assignment" }, []) := by
  rfl
